import Mathlib

/-!
Shallow embedding of the BenchExec benchmark orchestrator
(`benchexec/__init__.py`) and three tool adapters
(`benchexec/tools/forest.py`, `benchexec/tools/aprove.py`,
`benchexec/tools/symbiotic3.py`), together with theorems settling the
specification's claims about them.
-/

/-- Python substring scan on character lists: true when the first list
occurs contiguously inside the second. -/
def strContainsAux (n : List Char) : List Char → Bool
  | [] => n.isEmpty
  | c :: cs => (n.isPrefixOf (c :: cs)) || strContainsAux n cs

/-- Python case-sensitive substring test, needle in haystack, on strings. -/
def strContains (needle haystack : String) : Bool :=
  strContainsAux needle.data haystack.data

/-- Python str.strip with no argument: drop leading and trailing
whitespace characters. -/
def pyStrip (s : String) : String :=
  ⟨List.reverse (List.dropWhile Char.isWhitespace
      (List.reverse (List.dropWhile Char.isWhitespace s.data)))⟩

/-- Python is None test on an optional value. -/
def pyIsNone : Option String → Bool
  | none => true
  | some _ => false

/-- Modelled from the spec: `benchexec/result.py` is not under src/.
Per the spec's closed verdict taxonomy (section 4.3) the canonical
verdicts RESULT_TRUE_PROP, RESULT_FALSE_REACH, RESULT_FALSE_DEREF,
RESULT_FALSE_FREE, RESULT_FALSE_TERMINATION and RESULT_UNKNOWN are
distinct values, and free-text strings (error strings, the timeout
marker) form a separate open-ended bucket, never equal to a canonical
verdict. -/
inductive Verdict where
  | RESULT_TRUE_PROP
  | RESULT_FALSE_REACH
  | RESULT_FALSE_DEREF
  | RESULT_FALSE_FREE
  | RESULT_FALSE_TERMINATION
  | RESULT_UNKNOWN
  | text (s : String)
  deriving DecidableEq, Repr

/-- Decides whether a verdict is a free-text error string containing both
given fragments (used to state that a verdict does or does not embed an
exit code and a signal). -/
def isErrorStringContaining (v : Verdict) (a b : String) : Bool :=
  match v with
  | Verdict.text s => strContains a s && strContains b s
  | _ => false

namespace Forest

/-- Embedding of Tool.determine_result from benchexec/tools/forest.py
(lines 42-53). The output argument is the tool output as a list of lines
(the adapter framework passes a line list, as the join in aprove.py
shows), so Python's `"TRUE" in output` is list membership. The four
checks are independent consecutive if statements, each overwriting
`status`. -/
def determine_result (_returncode _returnsignal : Int) (output : List String)
    (_isTimeout : Bool) : Verdict :=
  let status := Verdict.RESULT_UNKNOWN
  let status := if output.contains "TRUE" then Verdict.RESULT_TRUE_PROP else status
  let status := if output.contains "FALSE_REACH" then Verdict.RESULT_FALSE_REACH else status
  let status := if output.contains "FALSE_DEREF" then Verdict.RESULT_FALSE_DEREF else status
  let status := if output.contains "FALSE_FREE" then Verdict.RESULT_FALSE_FREE else status
  status

end Forest

namespace AProVE

/-- Embedding of Tool.determine_result from benchexec/tools/aprove.py
(lines 41-52): the output lines are joined with newlines, then scanned
for substrings in the fixed order YES, TRUE, FALSE, NO by an if/elif
chain; returncode, returnsignal and isTimeout are never consulted. -/
def determine_result (_returncode _returnsignal : Int) (output : List String)
    (_isTimeout : Bool) : Verdict :=
  let output := String.intercalate "\n" output
  if strContains "YES" output then Verdict.RESULT_TRUE_PROP
  else if strContains "TRUE" output then Verdict.RESULT_TRUE_PROP
  else if strContains "FALSE" output then Verdict.RESULT_FALSE_TERMINATION
  else if strContains "NO" output then Verdict.RESULT_FALSE_TERMINATION
  else Verdict.RESULT_UNKNOWN

end AProVE

namespace Symbiotic

/-- Embedding of Tool.determine_result from benchexec/tools/symbiotic3.py
(lines 65-83). This adapter treats output as one string: Python's
output.strip() always returns a string (never None), so the stripped
value is embedded as `some (pyStrip output)` and the subsequent
`is None` test inspects that always-present value. -/
def determine_result (returncode returnsignal : Int) (output : String)
    (isTimeout : Bool) : Verdict :=
  if isTimeout then Verdict.text "timeout"
  else
    let stripped := pyStrip output
    if pyIsNone (some stripped) then Verdict.text "error (no output)"
    else if stripped = "TRUE" then Verdict.RESULT_TRUE_PROP
    else if stripped = "UNKNOWN" then Verdict.RESULT_UNKNOWN
    else if stripped = "FALSE" then Verdict.RESULT_FALSE_REACH
    else if returncode ≠ 0 then
      Verdict.text ("Failed with returncode: " ++ toString returncode
        ++ " (signal: " ++ toString returnsignal ++ ")")
    else Verdict.text "error (unknown)"

end Symbiotic

namespace BenchExec

/-- Python repr of a string as used in the parser.error message: the
text wrapped in single quotes (written here with hex escapes). -/
def pyRepr (s : String) : String := "\x27" ++ s ++ "\x27"

/-- The message parser.error receives at benchexec/__init__.py line 89. -/
def missingFileMsg (arg : String) : String :=
  "File " ++ pyRepr arg ++ " does not exist."

/-- External facts start consults: which paths exist and are regular
files, and the return code execute_benchmark produces per benchmark
file. -/
structure StartWorld where
  pathExists : String → Bool
  isRegularFile : String → Bool
  rcOf : String → Int

/-- The validation loop of BenchExec.start (lines 87-89): the first
configured file that does not exist or is not a regular file triggers
parser.error, which prints the message for that file and exits the
process at once (argparse error path). -/
def validateFiles (w : StartWorld) : List String → Except String Unit
  | [] => Except.ok ()
  | arg :: rest =>
    if !(w.pathExists arg) || !(w.isRegularFile arg) then
      Except.error (missingFileMsg arg)
    else validateFiles w rest

/-- Python `returnCode or rc` on integers: the left value when it is
non-zero (truthy), otherwise the right one. -/
def pyOr (a b : Int) : Int := if a ≠ 0 then a else b

/-- The accumulation loop of BenchExec.start (lines 98-106) over the
benchmark files it executes, with `returnCode = returnCode or rc`
starting from 0. The interrupt flag stays false here, so the list is
exactly the executed files (an interrupt only cuts the list short). -/
def startLoop (w : StartWorld) (files : List String) : Int :=
  files.foldl (fun acc f => pyOr acc (w.rcOf f)) 0

/-- Embedding of BenchExec.start: validate every configured file,
exiting at the first missing one, then execute the benchmarks in order
and combine their return codes. Logging setup, output-path
normalisation and executor loading have no bearing on the returned
value and are omitted. -/
def start (w : StartWorld) (files : List String) : Except String Int :=
  match validateFiles w files with
  | Except.error e => Except.error e
  | Except.ok _ => Except.ok (startLoop w files)

/-- Observable steps of execute_benchmark, recorded in order. -/
inductive Event where
  | benchmarkBuilt
  | executorInit
  | executorSystemInfo
  | executorRun
  | rmdirAttempt
  | commitAttempt
  | warnLogged
  deriving DecidableEq, Repr

/-- Ways execute_benchmark can leave: a normal return value, sys.exit
with an exit status and a message, or a propagating exception. -/
inductive Outcome where
  | ret (rc : Int)
  | sysExit (code : Int) (msg : String)
  | raised (e : String)
  deriving DecidableEq, Repr

/-- External facts execute_benchmark consults: the benchmark's log
folder and whether it already exists, what the executor's
execute_benchmark call does (returns a code or raises), whether the
os.rmdir cleanup call itself fails, and the commit configuration. -/
structure ExecWorld where
  logFolder : String
  logFolderExists : Bool
  executorResult : Except String Int
  rmdirFails : Bool
  commitRequested : Bool
  stoppedByInterrupt : Bool
  commitFails : Bool

/-- The message sys.exit receives in check_existing_results (line 270). -/
def existingResultsMsg (logFolder : String) : String :=
  "Output directory " ++ logFolder ++
    " already exists, will not overwrite existing results."

/-- Embedding of BenchExec.check_existing_results (lines 263-270):
sys.exit with the descriptive message when the log folder exists.
Python's sys.exit on a string prints it and ends the process with
status 1. -/
def check_existing_results (w : ExecWorld) : Option Outcome :=
  if w.logFolderExists then
    some (Outcome.sysExit 1 (existingResultsMsg w.logFolder))
  else none

/-- The os.rmdir call on the log folder in the finally block: raises an
OSError when the folder is non-empty or cannot be removed. -/
def rmdirLogFolder (w : ExecWorld) : Except String Unit :=
  if w.rmdirFails then Except.error "OSError" else Except.ok ()

/-- Embedding of BenchExec.execute_benchmark (lines 227-260): build the
Benchmark model, refuse to overwrite existing results, initialise the
executor and the output handler, run the benchmark inside try/finally
whose finally block attempts os.rmdir on the log folder and discards
any failure of the removal itself (bare except: pass), then optionally
commit; a commit failure only logs a warning and leaves the returned
result unchanged. -/
def execute_benchmark (w : ExecWorld) : List Event × Outcome :=
  let ev := [Event.benchmarkBuilt]
  match check_existing_results w with
  | some o => (ev, o)
  | none =>
    let ev := ev ++ [Event.executorInit, Event.executorSystemInfo]
    match w.executorResult with
    | Except.error e =>
      -- finally: removal attempted, its own failure discarded, exception propagates
      let _ := rmdirLogFolder w
      (ev ++ [Event.executorRun, Event.rmdirAttempt], Outcome.raised e)
    | Except.ok rc =>
      let _ := rmdirLogFolder w
      let ev := ev ++ [Event.executorRun, Event.rmdirAttempt]
      if w.commitRequested && !w.stoppedByInterrupt then
        if w.commitFails then
          (ev ++ [Event.commitAttempt, Event.warnLogged], Outcome.ret rc)
        else (ev ++ [Event.commitAttempt], Outcome.ret rc)
      else (ev, Outcome.ret rc)

/-- What benchexec.main observably does besides exiting. -/
inductive MainAction where
  | sigtermIgnored
  | calledStop
  | printedMsg (s : String)
  deriving DecidableEq, Repr

/-- How the process leaves main: an explicit sys.exit with a status, or
falling off the end of the function, after which the interpreter ends
the process with status 0. -/
inductive MainExit where
  | exited (code : Int)
  | fellThrough
  deriving DecidableEq, Repr

/-- The process exit status each way of leaving main produces. -/
def MainExit.status : MainExit → Int
  | MainExit.exited c => c
  | MainExit.fellThrough => 0

/-- What the call benchexec.start(argv) inside main does: returns a
code, or raises KeyboardInterrupt (interactive cancel). -/
inductive StartBehaviour where
  | returns (rc : Int)
  | keyboardInterrupt
  deriving DecidableEq, Repr

/-- Embedding of benchexec.main (lines 302-319): installs a handler
that logs and ignores SIGTERM, calls start and passes its return code
to sys.exit. KeyboardInterrupt is caught: stop() is called and a
message printed, after which control falls off the end of main. -/
def main (b : StartBehaviour) : List MainAction × MainExit :=
  let acts := [MainAction.sigtermIgnored]
  match b with
  | StartBehaviour.returns rc => (acts, MainExit.exited rc)
  | StartBehaviour.keyboardInterrupt =>
    (acts ++ [MainAction.calledStop,
        MainAction.printedMsg "\n\nScript was interrupted by user, some runs may not be done."],
      MainExit.fellThrough)

end BenchExec

/-- A concrete world in which no configured path exists. -/
def w1 : BenchExec.StartWorld :=
  ⟨fun _ => false, fun _ => false, fun _ => 0⟩

/-- A concrete world whose log folder already exists. -/
def w5 : BenchExec.ExecWorld :=
  ⟨"results/run.logfiles", true, Except.ok 0, false, false, false, false⟩

/-- A concrete world whose executor call raises and whose cleanup
removal itself fails. -/
def w6 : BenchExec.ExecWorld :=
  ⟨"results/run.logfiles", false, Except.error "ExecException", true, false, false, false⟩

/-- A concrete world in which every file exists and exactly one
benchmark file yields a non-zero return code. -/
def w8 : BenchExec.StartWorld :=
  ⟨fun _ => true, fun _ => true, fun f => if f = "bad.xml" then 2 else 0⟩

/-- Helper: a list is a Boolean prefix of itself followed by anything. -/
theorem isPrefixOf_append_self (n t : List Char) : n.isPrefixOf (n ++ t) = true := by
  induction n with
  | nil => simp [List.isPrefixOf]
  | cons c cs ih => simp [List.isPrefixOf, ih]

/-- Helper: the substring scan succeeds on any haystack that has the
needle in its middle. -/
theorem strContainsAux_middle (n a b : List Char) :
    strContainsAux n (a ++ (n ++ b)) = true := by
  induction a with
  | nil =>
    cases n with
    | nil =>
      cases b <;> simp [strContainsAux, List.isPrefixOf]
    | cons c cs =>
      simp only [List.nil_append, List.cons_append, strContainsAux]
      have h := isPrefixOf_append_self (c :: cs) b
      simp only [List.cons_append] at h
      simp [h]
  | cons c a ih =>
    simp only [List.cons_append, strContainsAux]
    simp [ih]

/-- Helper: substring containment from an explicit split of the
haystack's character data. -/
theorem strContains_of_split (n pre suf hay : String)
    (h : hay.data = pre.data ++ (n.data ++ suf.data)) : strContains n hay = true := by
  unfold strContains
  rw [h]
  exact strContainsAux_middle n.data pre.data suf.data

/-- Helper: the formatted failure message never equals the no-output
error string (their first characters differ). -/
theorem failedMsg_ne_no_output (a b : String) :
    ("Failed with returncode: " ++ a ++ " (signal: " ++ b ++ ")") ≠ "error (no output)" := by
  intro h
  have hd := congrArg (fun s => List.head? (String.data s)) h
  simp only [String.data_append, List.cons_append, List.append_assoc, List.head?_cons] at hd
  exact absurd hd (by decide)

/-- Helper: Python integer or is zero exactly when both operands are. -/
theorem pyOr_eq_zero (a b : Int) : BenchExec.pyOr a b = 0 ↔ a = 0 ∧ b = 0 := by
  unfold BenchExec.pyOr
  split <;> simp_all

/-- Helper: the start accumulation loop yields zero exactly when the
initial accumulator and every file's return code are zero. -/
theorem foldl_pyOr_eq_zero (w : BenchExec.StartWorld) (files : List String) (acc : Int) :
    files.foldl (fun a f => BenchExec.pyOr a (w.rcOf f)) acc = 0
      ↔ acc = 0 ∧ ∀ f ∈ files, w.rcOf f = 0 := by
  induction files generalizing acc with
  | nil => simp
  | cons f fs ih =>
    simp only [List.foldl_cons, ih, pyOr_eq_zero, List.mem_cons]
    constructor
    · rintro ⟨⟨h1, h2⟩, h3⟩
      exact ⟨h1, fun g hg => hg.elim (fun e => e ▸ h2) (h3 g)⟩
    · rintro ⟨h1, h2⟩
      exact ⟨⟨h1, h2 f (Or.inl rfl)⟩, fun g hg => h2 g (Or.inr hg)⟩

/-- C1 counterexample: with two configured files, both missing, start
exits with a message that names only the first missing file; the second
missing file is not reported. -/
theorem start_missing_files_only_first_reported :
    BenchExec.start w1 ["missing1.xml", "missing2.xml"]
        = Except.error (BenchExec.missingFileMsg "missing1.xml")
      ∧ w1.pathExists "missing2.xml" = false
      ∧ strContains "missing1" (BenchExec.missingFileMsg "missing1.xml") = true
      ∧ strContains "missing2" (BenchExec.missingFileMsg "missing1.xml") = false := by
  refine ⟨rfl, rfl, by decide, by decide⟩

/-- C1 amended: start reports the first configured benchmark file that
does not exist or is not a regular file and exits immediately with a
message naming exactly that file, before any benchmark execution
begins; later files are neither checked nor reported. -/
theorem start_reports_first_missing_file (w : BenchExec.StartWorld)
    (pre : List String) (f : String) (post : List String)
    (h1 : ∀ g ∈ pre, w.pathExists g = true ∧ w.isRegularFile g = true)
    (h2 : w.pathExists f = false ∨ w.isRegularFile f = false) :
    BenchExec.start w (pre ++ f :: post) = Except.error (BenchExec.missingFileMsg f) := by
  have hv : BenchExec.validateFiles w (pre ++ f :: post)
      = Except.error (BenchExec.missingFileMsg f) := by
    induction pre with
    | nil =>
      unfold BenchExec.validateFiles
      rcases h2 with h2 | h2 <;> simp [h2]
    | cons g gs ih =>
      have hg := h1 g (by simp)
      have hrest : ∀ x ∈ gs, w.pathExists x = true ∧ w.isRegularFile x = true :=
        fun x hx => h1 x (by simp [hx])
      simp only [List.cons_append]
      unfold BenchExec.validateFiles
      simp [hg.1, hg.2, ih hrest]
  unfold BenchExec.start
  rw [hv]

/-- C1 witness: the amended first-missing-file law at a concrete input. -/
theorem start_reports_first_missing_file_witness :
    BenchExec.start w1 ([] ++ "missing1.xml" :: ["missing2.xml"])
      = Except.error (BenchExec.missingFileMsg "missing1.xml") :=
  start_reports_first_missing_file w1 [] "missing1.xml" ["missing2.xml"]
    (by simp) (Or.inl rfl)

/-- C2 counterexample: the Forest adapter checks TRUE first, and on an
output where both the TRUE and the FALSE_REACH markers match it returns
RESULT_FALSE_REACH, not RESULT_TRUE_PROP. -/
theorem forest_later_marker_overrides :
    (["TRUE", "FALSE_REACH"] : List String).contains "TRUE" = true
      ∧ (["TRUE", "FALSE_REACH"] : List String).contains "FALSE_REACH" = true
      ∧ Forest.determine_result 0 0 ["TRUE", "FALSE_REACH"] false = Verdict.RESULT_FALSE_REACH
      ∧ Verdict.RESULT_FALSE_REACH ≠ Verdict.RESULT_TRUE_PROP := by
  refine ⟨by decide, by decide, by decide, by decide⟩

/-- C2 amended: marker priority is adapter-specific. For the AProVE
adapter, an if/elif chain, the earlier-priority marker wins: any output
matching TRUE (and not YES) yields RESULT_TRUE_PROP even when FALSE or
NO also match. For the Forest adapter the checks are independent
consecutive ifs, so the later marker wins: any output matching
FALSE_REACH (and not the still-later FALSE_DEREF or FALSE_FREE) yields
RESULT_FALSE_REACH even when TRUE also matches. -/
theorem adapter_marker_priority (rcA sigA rcF sigF : Int)
    (outA outF : List String) (tA tF : Bool)
    (hT : strContains "TRUE" (String.intercalate "\n" outA) = true)
    (hY : strContains "YES" (String.intercalate "\n" outA) = false)
    (hR : outF.contains "FALSE_REACH" = true)
    (hD : outF.contains "FALSE_DEREF" = false)
    (hF : outF.contains "FALSE_FREE" = false) :
    AProVE.determine_result rcA sigA outA tA = Verdict.RESULT_TRUE_PROP
      ∧ Forest.determine_result rcF sigF outF tF = Verdict.RESULT_FALSE_REACH := by
  constructor
  · unfold AProVE.determine_result
    simp [hT, hY]
  · have hR2 : "FALSE_REACH" ∈ outF := by simpa using hR
    have hD2 : "FALSE_DEREF" ∉ outF := by simpa using hD
    have hF2 : "FALSE_FREE" ∉ outF := by simpa using hF
    unfold Forest.determine_result
    simp [hR2, hD2, hF2]

/-- C2 witness: the amended priority law at concrete outputs on which
two markers match for each adapter. -/
theorem adapter_marker_priority_witness :
    AProVE.determine_result 0 0 ["TRUE FALSE_REACH"] false = Verdict.RESULT_TRUE_PROP
      ∧ Forest.determine_result 0 0 ["TRUE", "FALSE_REACH"] false = Verdict.RESULT_FALSE_REACH :=
  adapter_marker_priority 0 0 0 0 ["TRUE FALSE_REACH"] ["TRUE", "FALSE_REACH"] false false
    (by decide) (by decide) (by decide) (by decide) (by decide)

/-- C3 counterexample: the Forest adapter, with return code 1, signal 9,
empty output and no timeout, returns RESULT_UNKNOWN, which is not an
error string and embeds neither the exit code nor the signal. -/
theorem forest_unknown_on_nonzero_returncode :
    Forest.determine_result 1 9 [] false = Verdict.RESULT_UNKNOWN
      ∧ isErrorStringContaining (Forest.determine_result 1 9 [] false) "1" "9" = false := by
  refine ⟨by decide, by decide⟩

/-- C3 amended: for the Symbiotic adapter, whenever no textual marker
matches the stripped output, the timeout flag is not set and the return
code is non-zero, determine_result returns the error string that embeds
the exit code and the signal; the Forest adapter ignores the return
code in that situation and yields RESULT_UNKNOWN instead. -/
theorem symbiotic_error_embeds_returncode_and_signal (rc sig : Int) (out : String)
    (h1 : pyStrip out ≠ "TRUE") (h2 : pyStrip out ≠ "UNKNOWN")
    (h3 : pyStrip out ≠ "FALSE") (h4 : rc ≠ 0) :
    Symbiotic.determine_result rc sig out false
        = Verdict.text ("Failed with returncode: " ++ toString rc
            ++ " (signal: " ++ toString sig ++ ")")
      ∧ strContains (toString rc) ("Failed with returncode: " ++ toString rc
            ++ " (signal: " ++ toString sig ++ ")") = true
      ∧ strContains (toString sig) ("Failed with returncode: " ++ toString rc
            ++ " (signal: " ++ toString sig ++ ")") = true := by
  refine ⟨?_, ?_, ?_⟩
  · unfold Symbiotic.determine_result
    simp [pyIsNone, h1, h2, h3, h4]
  · exact strContains_of_split (toString rc) "Failed with returncode: "
      (" (signal: " ++ toString sig ++ ")") _ (by simp [String.data_append])
  · exact strContains_of_split (toString sig)
      ("Failed with returncode: " ++ toString rc ++ " (signal: ") ")" _
      (by simp [String.data_append])

/-- C3 witness: scenario C at exit code 1 and signal 9 with empty
output; the resulting error string contains 1 and 9. -/
theorem symbiotic_error_embeds_returncode_and_signal_witness :
    Symbiotic.determine_result 1 9 "" false
        = Verdict.text ("Failed with returncode: " ++ toString (1 : Int)
            ++ " (signal: " ++ toString (9 : Int) ++ ")")
      ∧ strContains (toString (1 : Int)) ("Failed with returncode: " ++ toString (1 : Int)
            ++ " (signal: " ++ toString (9 : Int) ++ ")") = true
      ∧ strContains (toString (9 : Int)) ("Failed with returncode: " ++ toString (1 : Int)
            ++ " (signal: " ++ toString (9 : Int) ++ ")") = true :=
  symbiotic_error_embeds_returncode_and_signal 1 9 ""
    (by decide) (by decide) (by decide) (by decide)

/-- C4 counterexample: the Symbiotic adapter with empty output, return
code 0, no signal and no timeout returns the error string
error (unknown), which is not the RESULT_UNKNOWN verdict. -/
theorem symbiotic_error_unknown_not_result_unknown :
    Symbiotic.determine_result 0 0 "" false = Verdict.text "error (unknown)"
      ∧ Verdict.text "error (unknown)" ≠ Verdict.RESULT_UNKNOWN := by
  refine ⟨by decide, by decide⟩

/-- C4 amended: for the AProVE and Forest adapters, whenever no textual
marker matches the output, determine_result returns RESULT_UNKNOWN (in
particular with the timeout flag unset and return code zero); the
Symbiotic adapter instead returns the error string error (unknown) in
that situation. -/
theorem adapters_fallback_unknown_on_no_match (rc sig : Int)
    (outA outF : List String) (t : Bool)
    (hY : strContains "YES" (String.intercalate "\n" outA) = false)
    (hT : strContains "TRUE" (String.intercalate "\n" outA) = false)
    (hF : strContains "FALSE" (String.intercalate "\n" outA) = false)
    (hN : strContains "NO" (String.intercalate "\n" outA) = false)
    (h1 : outF.contains "TRUE" = false)
    (h2 : outF.contains "FALSE_REACH" = false)
    (h3 : outF.contains "FALSE_DEREF" = false)
    (h4 : outF.contains "FALSE_FREE" = false) :
    AProVE.determine_result rc sig outA t = Verdict.RESULT_UNKNOWN
      ∧ Forest.determine_result rc sig outF t = Verdict.RESULT_UNKNOWN := by
  constructor
  · unfold AProVE.determine_result
    simp [hY, hT, hF, hN]
  · have h1b : "TRUE" ∉ outF := by simpa using h1
    have h2b : "FALSE_REACH" ∉ outF := by simpa using h2
    have h3b : "FALSE_DEREF" ∉ outF := by simpa using h3
    have h4b : "FALSE_FREE" ∉ outF := by simpa using h4
    unfold Forest.determine_result
    simp [h1b, h2b, h3b, h4b]

/-- C4 witness: the amended fallback law on empty outputs with return
code zero and the timeout flag unset. -/
theorem adapters_fallback_unknown_on_no_match_witness :
    AProVE.determine_result 0 0 [] false = Verdict.RESULT_UNKNOWN
      ∧ Forest.determine_result 0 0 [] false = Verdict.RESULT_UNKNOWN :=
  adapters_fallback_unknown_on_no_match 0 0 [] [] false
    (by decide) (by decide) (by decide) (by decide)
    (by decide) (by decide) (by decide) (by decide)

/-- C5: when the benchmark's log folder already exists,
execute_benchmark leaves through sys.exit with status 1 and the
descriptive overwrite-refusal message, before any executor call
(no init, no system-info query, no run) is made. -/
theorem log_folder_exists_aborts_before_executor (w : BenchExec.ExecWorld)
    (h : w.logFolderExists = true) :
    (BenchExec.execute_benchmark w).2
        = BenchExec.Outcome.sysExit 1 (BenchExec.existingResultsMsg w.logFolder)
      ∧ strContains "already exists" (BenchExec.existingResultsMsg w.logFolder) = true
      ∧ BenchExec.Event.executorInit ∉ (BenchExec.execute_benchmark w).1
      ∧ BenchExec.Event.executorSystemInfo ∉ (BenchExec.execute_benchmark w).1
      ∧ BenchExec.Event.executorRun ∉ (BenchExec.execute_benchmark w).1 := by
  have hrun : BenchExec.execute_benchmark w
      = ([BenchExec.Event.benchmarkBuilt],
          BenchExec.Outcome.sysExit 1 (BenchExec.existingResultsMsg w.logFolder)) := by
    unfold BenchExec.execute_benchmark BenchExec.check_existing_results
    simp [h]
  refine ⟨by rw [hrun], ?_, by rw [hrun]; simp, by rw [hrun]; simp, by rw [hrun]; simp⟩
  exact strContains_of_split "already exists"
    ("Output directory " ++ w.logFolder ++ " ") ", will not overwrite existing results." _
    (by
      unfold BenchExec.existingResultsMsg
      simp only [String.data_append, List.append_assoc]
      congr 2)

/-- C5 witness: the abort law at a concrete world whose log folder
already exists. -/
theorem log_folder_exists_aborts_before_executor_witness :
    (BenchExec.execute_benchmark w5).2
        = BenchExec.Outcome.sysExit 1 (BenchExec.existingResultsMsg w5.logFolder)
      ∧ strContains "already exists" (BenchExec.existingResultsMsg w5.logFolder) = true
      ∧ BenchExec.Event.executorInit ∉ (BenchExec.execute_benchmark w5).1
      ∧ BenchExec.Event.executorSystemInfo ∉ (BenchExec.execute_benchmark w5).1
      ∧ BenchExec.Event.executorRun ∉ (BenchExec.execute_benchmark w5).1 :=
  log_folder_exists_aborts_before_executor w5 rfl

/-- C6: once the log folder pre-flight check has passed, the log-folder
removal is attempted both when the executor call returns normally and
when it raises; the whole observable behaviour is independent of
whether the removal itself fails, and an executor exception still
propagates out of execute_benchmark. -/
theorem cleanup_attempted_and_failure_ignored (w : BenchExec.ExecWorld)
    (b : Bool) (e : String) (h : w.logFolderExists = false) :
    BenchExec.Event.rmdirAttempt ∈ (BenchExec.execute_benchmark w).1
      ∧ BenchExec.execute_benchmark { w with rmdirFails := b } = BenchExec.execute_benchmark w
      ∧ (w.executorResult = Except.error e
          → (BenchExec.execute_benchmark w).2 = BenchExec.Outcome.raised e) := by
  refine ⟨?_, rfl, ?_⟩
  · unfold BenchExec.execute_benchmark BenchExec.check_existing_results
    rcases hre : w.executorResult with e' | rc
    · simp [h, hre]
    · simp [h, hre]
      split_ifs <;> simp
  · intro hre
    unfold BenchExec.execute_benchmark BenchExec.check_existing_results
    simp [h, hre]

/-- C6 witness: the cleanup law at a concrete world whose executor call
raises and whose removal attempt itself fails. -/
theorem cleanup_attempted_and_failure_ignored_witness :
    BenchExec.Event.rmdirAttempt ∈ (BenchExec.execute_benchmark w6).1
      ∧ BenchExec.execute_benchmark { w6 with rmdirFails := false }
          = BenchExec.execute_benchmark w6
      ∧ (w6.executorResult = Except.error "ExecException"
          → (BenchExec.execute_benchmark w6).2 = BenchExec.Outcome.raised "ExecException") :=
  cleanup_attempted_and_failure_ignored w6 false "ExecException" rfl

/-- C7: the code at the failing input. When start raises
KeyboardInterrupt, main calls stop and prints the user-facing message
that some runs may not be done, but then falls off the end of the
function, so the process exits with status 0 rather than a non-zero
code (contradicting main's own docstring, which says it does not
return but calls sys.exit). -/
theorem main_keyboard_interrupt_exits_zero :
    BenchExec.main BenchExec.StartBehaviour.keyboardInterrupt
        = ([BenchExec.MainAction.sigtermIgnored, BenchExec.MainAction.calledStop,
            BenchExec.MainAction.printedMsg
              "\n\nScript was interrupted by user, some runs may not be done."],
           BenchExec.MainExit.fellThrough)
      ∧ BenchExec.MainExit.status BenchExec.MainExit.fellThrough = 0 := by
  refine ⟨rfl, rfl⟩

/-- C8: a successful start returns the Python or-fold of the per-file
return codes: the result is 0 exactly when every executed benchmark
file's return code was 0 (and hence non-zero whenever any code was
non-zero). -/
theorem start_return_code_is_or_of_file_codes (w : BenchExec.StartWorld)
    (files : List String) (r : Int)
    (h : BenchExec.start w files = Except.ok r) :
    r = 0 ↔ ∀ f ∈ files, w.rcOf f = 0 := by
  have hr : r = BenchExec.startLoop w files := by
    unfold BenchExec.start at h
    rcases hv : BenchExec.validateFiles w files with e | u <;> rw [hv] at h
    · exact absurd h (by simp)
    · simpa using h.symm
  rw [hr]
  unfold BenchExec.startLoop
  rw [foldl_pyOr_eq_zero]
  simp

/-- C8 witness: the return-code law at a concrete world in which one of
two executed benchmark files fails with code 2. -/
theorem start_return_code_is_or_of_file_codes_witness :
    (2 : Int) = 0 ↔ ∀ f ∈ (["good.xml", "bad.xml"] : List String), w8.rcOf f = 0 :=
  start_return_code_is_or_of_file_codes w8 ["good.xml", "bad.xml"] 2 rfl

/-- C9: the AProVE adapter classifies from the output text alone,
ignoring returncode, returnsignal and isTimeout; and any output whose
join contains NO as a substring but neither YES nor TRUE nor FALSE is
classified RESULT_FALSE_TERMINATION (the single word UNKNOWN is such an
output, since UNKNOWN contains NO). -/
theorem aprove_text_only_and_NO_gives_false_termination
    (rc rc' sig sig' : Int) (out : List String) (t t' : Bool)
    (hN : strContains "NO" (String.intercalate "\n" out) = true)
    (hY : strContains "YES" (String.intercalate "\n" out) = false)
    (hT : strContains "TRUE" (String.intercalate "\n" out) = false)
    (hF : strContains "FALSE" (String.intercalate "\n" out) = false) :
    AProVE.determine_result rc sig out t = AProVE.determine_result rc' sig' out t'
      ∧ AProVE.determine_result rc sig out t = Verdict.RESULT_FALSE_TERMINATION := by
  refine ⟨rfl, ?_⟩
  unfold AProVE.determine_result
  simp [hN, hY, hT, hF]

/-- C9 witness: the output consisting of the single word UNKNOWN is
classified RESULT_FALSE_TERMINATION, independently of return code,
signal and timeout flag. -/
theorem aprove_text_only_and_NO_gives_false_termination_witness :
    AProVE.determine_result 5 3 ["UNKNOWN"] true
        = AProVE.determine_result 7 4 ["UNKNOWN"] false
      ∧ AProVE.determine_result 5 3 ["UNKNOWN"] true = Verdict.RESULT_FALSE_TERMINATION :=
  aprove_text_only_and_NO_gives_false_termination 5 7 3 4 ["UNKNOWN"] true false
    (by decide) (by decide) (by decide) (by decide)

/-- C10: the error (no output) branch of the Symbiotic adapter is
unreachable: the None check runs on the result of output.strip(),
which is never None, so no input yields error (no output); an empty
output with return code zero yields error (unknown) instead. -/
theorem symbiotic_no_output_branch_unreachable (rc sig : Int) (out : String) (t : Bool) :
    Symbiotic.determine_result rc sig out t ≠ Verdict.text "error (no output)"
      ∧ Symbiotic.determine_result 0 0 "" false = Verdict.text "error (unknown)" := by
  refine ⟨?_, by decide⟩
  unfold Symbiotic.determine_result
  simp only [pyIsNone]
  split_ifs <;> simp_all
  exact failedMsg_ne_no_output (toString rc) (toString sig)
